import Mathlib

/-!
Shallow embedding of `support/bin/hiosctl.py`, a CLI tool with three
operations: `store-s3` (sync a local directory of FHIR bundles into an S3
bucket), `ingest-healthlake` (submit one HealthLake import job per stored
object), and `doctor` (diagnose credentials and resource reachability).

External AWS calls are modelled by explicit response values / transport
functions supplied as parameters; the bucket is modelled as the list of
object keys it holds.  Every branch of the Python code (including each
`except` clause and each `sys.exit`) is reflected in the corresponding
Lean definition.
-/

namespace Hiosctl

/-- Response of `s3_client.head_object`: success, or a `ClientError`
carrying the error code string (e.g. "404") and a message. -/
inductive HeadResponse where
  | ok : HeadResponse
  | clientError (code : String) (msg : String) : HeadResponse
deriving DecidableEq, Repr

/-- Response of `s3_client.upload_file`: success, or one of the exception
classes caught in `upload_to_s3` (`FileNotFoundError`, `NoCredentialsError`,
`PartialCredentialsError`, any other `Exception`). -/
inductive PutResponse where
  | ok : PutResponse
  | fileNotFound : PutResponse
  | noCredentials : PutResponse
  | partialCredentials : PutResponse
  | otherError (msg : String) : PutResponse
deriving DecidableEq, Repr

/-- The S3 transport as seen by `upload_to_s3`: given the current bucket
contents and a key, how `head_object` and `upload_file` respond. -/
structure Transport where
  head : List String → String → HeadResponse
  put : List String → String → PutResponse

/-- The fault-free S3 semantics: `head_object` succeeds exactly when the
key is present (else a 404 `ClientError`), and `upload_file` succeeds. -/
def honestTransport : Transport where
  head := fun st key => if key ∈ st then .ok else .clientError "404" "Not Found"
  put := fun _ _ => .ok

/-- The per-file outcome of `upload_to_s3`, one constructor per `print`
branch of the Python function. -/
inductive UploadOutcome where
  | skipped : UploadOutcome
  | uploaded : UploadOutcome
  | failedFileNotFound : UploadOutcome
  | failedNoCredentials : UploadOutcome
  | failedPartialCredentials : UploadOutcome
  | failedOther (msg : String) : UploadOutcome
  | failedHead (code : String) (msg : String) : UploadOutcome
deriving DecidableEq, Repr

/-- Result of one `upload_to_s3` call: the bucket state afterwards, the
outcome printed, and the list of keys for which `upload_file` was invoked
(at most one; a failed put is still an issued put). -/
structure UploadStep where
  state : List String
  outcome : UploadOutcome
  puts : List String
deriving DecidableEq, Repr

/-- `upload_to_s3(s3_client, file_path, bucket_name, object_name)`
(hiosctl.py lines 31-49): head the destination key; on success skip; on a
`ClientError` with code '404' attempt the upload and translate each
exception class to its message; on any other `ClientError` report the
error without uploading. -/
def upload_to_s3 (t : Transport) (st : List String) (key : String) : UploadStep :=
  match t.head st key with
  | .ok => { state := st, outcome := .skipped, puts := [] }
  | .clientError code _msg =>
    if code = "404" then
      match t.put st key with
      | .ok => { state := key :: st, outcome := .uploaded, puts := [key] }
      | .fileNotFound => { state := st, outcome := .failedFileNotFound, puts := [key] }
      | .noCredentials => { state := st, outcome := .failedNoCredentials, puts := [key] }
      | .partialCredentials =>
          { state := st, outcome := .failedPartialCredentials, puts := [key] }
      | .otherError m => { state := st, outcome := .failedOther m, puts := [key] }
    else { state := st, outcome := .failedHead code _msg, puts := [] }

/-- Python's `s.endswith(post)`: the last `len(post)` characters of `s`
equal `post`. -/
def pyEndsWith (s post : String) : Bool :=
  post.data.isSuffixOf s.data

/-- Python's `s.replace(old, new)` restricted to the one-character pattern
used at line 63 (`.replace("\\", "/")`): every occurrence of the character
`a` is replaced by `b`. -/
def pyReplaceChar (s : String) (a b : Char) : String :=
  ⟨s.data.map (fun c => if c = a then b else c)⟩

/-- A file produced by `os.walk` under the sync root: the directory path
relative to the root (as a list of components) and the file name. -/
structure LocalFile where
  relDir : List String
  filename : String
deriving DecidableEq, Repr

/-- `os.path.relpath(file_path, root).replace("\\", "/")` (line 63): the
destination key is the path of the file relative to the root, joined with
the host separator `sep`, with backslashes normalized to forward slashes. -/
def relKey (sep : String) (f : LocalFile) : String :=
  pyReplaceChar (String.intercalate sep (f.relDir ++ [f.filename])) '\\' '/'

/-- Result of a whole `store_s3` run: final bucket state, the ordered
per-file outcomes (key, outcome), and every key for which a put was
issued. -/
structure SyncResult where
  state : List String
  outcomes : List (String × UploadOutcome)
  puts : List String
deriving DecidableEq, Repr

/-- `store_s3(bucket_name, synthea_fhir_bundles)` (lines 51-64): walk the
local tree; for every file whose name ends in `.json`, derive the
destination key and run `upload_to_s3`; other files are skipped without
any network call.  The walk is modelled by the list `files`. -/
def store_s3 (t : Transport) (sep : String) (files : List LocalFile)
    (st : List String) : SyncResult :=
  match files with
  | [] => { state := st, outcomes := [], puts := [] }
  | f :: rest =>
    if pyEndsWith f.filename ".json" then
      let step := upload_to_s3 t st (relKey sep f)
      let restRes := store_s3 t sep rest step.state
      { state := restRes.state
        outcomes := (relKey sep f, step.outcome) :: restRes.outcomes
        puts := step.puts ++ restRes.puts }
    else
      store_s3 t sep rest st

/-- The `store-s3` branch of `__main__` (lines 152-161): after argument
checks, if the path is not a directory print and exit 1; otherwise run
`store_s3` and fall off the end of the script, exiting 0.  Returns the
process exit code and the outcomes of the run (empty if it did not run). -/
def run_store_s3 (pathIsDir : Bool) (t : Transport) (sep : String)
    (files : List LocalFile) (st : List String) : Nat × List (String × UploadOutcome) :=
  if pathIsDir then (0, (store_s3 t sep files st).outcomes)
  else (1, [])

/-- An import job request as built by `ingest_healthlake` (lines 84-97):
datastore id, source S3 URI, job name, data-access role ARN, and the fixed
output URI under the reserved prefix of the source bucket. -/
structure ImportJobRequest where
  datastoreId : String
  s3Uri : String
  jobName : String
  dataAccessRoleArn : String
  outputUri : String
deriving DecidableEq, Repr

/-- `JobName=f'Ingest-{object_name[:55]}'` (line 89): the job name derived
from an object key — the literal prefix `Ingest-` followed by the first 55
characters of the key. -/
def jobNameOfKey (key : String) : String :=
  "Ingest-" ++ key.take 55

/-- The request `start_fhir_import_job` receives for one object key. -/
def mkImportRequest (bucket datastoreId darole key : String) : ImportJobRequest where
  datastoreId := datastoreId
  s3Uri := "s3://" ++ bucket ++ "/" ++ key
  jobName := jobNameOfKey key
  dataAccessRoleArn := darole
  outputUri := "s3://" ++ bucket ++ "/healthlake-start_fhir_import_job-output/"

/-- Response of `healthlake_client.start_fhir_import_job`: a job id, or a
`ClientError` (the only exception class caught per key, line 99). -/
inductive SubmitResponse where
  | ok (jobId : String) : SubmitResponse
  | clientError (msg : String) : SubmitResponse
deriving DecidableEq, Repr

/-- Response of `s3_client.list_objects_v2` as `ingest_healthlake` sees
it: a successful response whose `Contents` field is present (`some keys`)
or absent (`none`, the empty-bucket case), or one of the exceptions caught
by the outer handlers (lines 103-108). -/
inductive ListResponse where
  | ok (contents : Option (List String)) : ListResponse
  | noCredentialsError : ListResponse
  | partialCredentialsError : ListResponse
  | otherError (msg : String) : ListResponse
deriving DecidableEq, Repr

/-- One printed outcome of the ingest loop or of its error handlers. -/
inductive IngestOutcome where
  | started (key jobId : String) : IngestOutcome
  | failed (key msg : String) : IngestOutcome
  | nothingToIngest : IngestOutcome
  | noCredentials : IngestOutcome
  | partialCredentials : IngestOutcome
  | listingError (msg : String) : IngestOutcome
deriving DecidableEq, Repr

/-- Result of running the `ingest-healthlake` command: the process exit
code, the import requests actually submitted, and the printed outcomes. -/
structure IngestResult where
  exitCode : Nat
  requests : List ImportJobRequest
  outcomes : List IngestOutcome
deriving DecidableEq, Repr

/-- `ingest_healthlake(bucket_name, datastore_id, data_access_role_arn)`
(lines 66-108) followed by the fall-through of `__main__` (line 169): list
the bucket; if `Contents` is present submit one import job per listed key,
catching `ClientError` per key and continuing; if absent print "No objects
found"; any listing failure is caught by the outer handlers and printed.
No branch calls `sys.exit`, so the process exit code is 0 in every case. -/
def ingest_healthlake (bucket datastoreId darole : String)
    (listing : ListResponse) (submit : ImportJobRequest → SubmitResponse) :
    IngestResult :=
  match listing with
  | .ok (some keys) =>
    { exitCode := 0
      requests := keys.map (mkImportRequest bucket datastoreId darole)
      outcomes := keys.map (fun k =>
        match submit (mkImportRequest bucket datastoreId darole k) with
        | .ok jid => .started k jid
        | .clientError m => .failed k m) }
  | .ok none =>
    { exitCode := 0, requests := [], outcomes := [.nothingToIngest] }
  | .noCredentialsError =>
    { exitCode := 0, requests := [], outcomes := [.noCredentials] }
  | .partialCredentialsError =>
    { exitCode := 0, requests := [], outcomes := [.partialCredentials] }
  | .otherError m =>
    { exitCode := 0, requests := [], outcomes := [.listingError m] }

/-- `required_env_vars` (line 111). -/
def required_env_vars : List String :=
  ["AWS_ACCESS_KEY_ID", "AWS_SECRET_ACCESS_KEY", "AWS_REGION"]

/-- Response of a remote doctor check (`head_bucket` or
`describe_fhir_datastore`): success or a `ClientError`. -/
inductive RemoteResponse where
  | ok : RemoteResponse
  | clientError (msg : String) : RemoteResponse
deriving DecidableEq, Repr

/-- Observable result of the `doctor` command: the process exit code, the
environment variables reported missing, and for each remote check whether
it was attempted and whether it passed. -/
structure DoctorResult where
  exitCode : Nat
  missingVars : List String
  bucketChecked : Bool
  bucketPassed : Bool
  datastoreChecked : Bool
  datastorePassed : Bool
deriving DecidableEq, Repr

/-- `doctor(bucket_name, datastore_id)` (lines 110-140): collect the
required environment variables that are unset; if any, print them and
`sys.exit(1)` before creating clients.  Otherwise `head_bucket`; on
`ClientError` print and `sys.exit(1)` (the datastore check is not
reached).  Otherwise `describe_fhir_datastore`; on `ClientError` print and
`sys.exit(1)`; else fall through to exit 0. -/
def doctor (env : String → Option String)
    (headBucket describeDatastore : RemoteResponse) : DoctorResult :=
  let missing := required_env_vars.filter (fun v => (env v).isNone)
  if missing.isEmpty then
    match headBucket with
    | .clientError _ =>
      { exitCode := 1, missingVars := [], bucketChecked := true,
        bucketPassed := false, datastoreChecked := false, datastorePassed := false }
    | .ok =>
      match describeDatastore with
      | .clientError _ =>
        { exitCode := 1, missingVars := [], bucketChecked := true,
          bucketPassed := true, datastoreChecked := true, datastorePassed := false }
      | .ok =>
        { exitCode := 0, missingVars := [], bucketChecked := true,
          bucketPassed := true, datastoreChecked := true, datastorePassed := true }
  else
    { exitCode := 1, missingVars := missing, bucketChecked := false,
      bucketPassed := false, datastoreChecked := false, datastorePassed := false }

/-! ### Helper lemmas about the sync loop -/

/-- Whatever the transport does, the sync loop emits exactly one outcome
per `.json` file, keyed by `relKey`, in walk order. -/
theorem store_s3_outcome_keys (t : Transport) (sep : String) :
    ∀ (files : List LocalFile) (st : List String),
      (store_s3 t sep files st).outcomes.map Prod.fst =
        (files.filter (fun f => pyEndsWith f.filename ".json")).map (relKey sep)
  | [], _ => rfl
  | f :: rest, st => by
    by_cases h : pyEndsWith f.filename ".json" = true
    · simp [store_s3, h, store_s3_outcome_keys t sep rest]
    · simp [store_s3, h, store_s3_outcome_keys t sep rest]

theorem upload_honest_mem {st : List String} {key : String} (h : key ∈ st) :
    upload_to_s3 honestTransport st key =
      { state := st, outcome := .skipped, puts := [] } := by
  simp [upload_to_s3, honestTransport, h]

theorem upload_honest_not_mem {st : List String} {key : String} (h : key ∉ st) :
    upload_to_s3 honestTransport st key =
      { state := key :: st, outcome := .uploaded, puts := [key] } := by
  simp [upload_to_s3, honestTransport, h]

/-- Under the fault-free transport the bucket only grows during a sync. -/
theorem store_honest_mono (sep : String) :
    ∀ (files : List LocalFile) (st : List String) (key : String),
      key ∈ st → key ∈ (store_s3 honestTransport sep files st).state
  | [], _, _, h => h
  | f :: rest, st, key, h => by
    by_cases hj : pyEndsWith f.filename ".json" = true
    · by_cases hm : relKey sep f ∈ st
      · simpa [store_s3, hj, upload_honest_mem hm] using
          store_honest_mono sep rest st key h
      · simpa [store_s3, hj, upload_honest_not_mem hm] using
          store_honest_mono sep rest (relKey sep f :: st) key (List.mem_cons_of_mem _ h)
    · simpa [store_s3, hj] using store_honest_mono sep rest st key h

/-- Under the fault-free transport, after a sync every `.json` file's key
is in the bucket. -/
theorem store_honest_covers (sep : String) :
    ∀ (files : List LocalFile) (st : List String) (f : LocalFile),
      f ∈ files → pyEndsWith f.filename ".json" = true →
      relKey sep f ∈ (store_s3 honestTransport sep files st).state
  | [], _, _, hf, _ => absurd hf (List.not_mem_nil _)
  | g :: rest, st, f, hf, hjson => by
    rcases List.mem_cons.mp hf with hfg | hf
    · subst hfg
      by_cases hm : relKey sep f ∈ st
      · simp only [store_s3, hjson, if_true, upload_honest_mem hm]
        exact store_honest_mono sep rest st _ hm
      · simp only [store_s3, hjson, if_true, upload_honest_not_mem hm]
        exact store_honest_mono sep rest _ _ (List.mem_cons_self _ _)
    · by_cases hj : pyEndsWith g.filename ".json" = true
      · by_cases hm : relKey sep g ∈ st
        · simp only [store_s3, hj, if_true, upload_honest_mem hm]
          exact store_honest_covers sep rest st f hf hjson
        · simp only [store_s3, hj, if_true, upload_honest_not_mem hm]
          exact store_honest_covers sep rest _ f hf hjson
      · simp only [store_s3, hj, if_false]
        exact store_honest_covers sep rest st f hf hjson

/-- Under the fault-free transport, if every `.json` file's key is already
in the bucket, the sync changes nothing: every outcome is `skipped` and no
put is issued. -/
theorem store_honest_all_present (sep : String) :
    ∀ (files : List LocalFile) (st : List String),
      (∀ f ∈ files, pyEndsWith f.filename ".json" = true → relKey sep f ∈ st) →
      store_s3 honestTransport sep files st =
        { state := st
          outcomes := (files.filter (fun f => pyEndsWith f.filename ".json")).map
            (fun f => (relKey sep f, UploadOutcome.skipped))
          puts := [] }
  | [], _, _ => rfl
  | f :: rest, st, hall => by
    by_cases hj : pyEndsWith f.filename ".json" = true
    · have hm : relKey sep f ∈ st := hall f (List.mem_cons_self _ _) hj
      have hrest := store_honest_all_present sep rest st
        (fun g hg hgj => hall g (List.mem_cons_of_mem _ hg) hgj)
      simp [store_s3, hj, upload_honest_mem hm, hrest]
    · have hrest := store_honest_all_present sep rest st
        (fun g hg hgj => hall g (List.mem_cons_of_mem _ hg) hgj)
      simp [store_s3, hj, hrest]

/-! ### Claim theorems -/

/-- C2: Sync is idempotent.  For every separator, local file list and
initial bucket state, rerunning `store_s3` (under the fault-free S3
semantics) from the bucket state produced by the first run leaves the
bucket unchanged, yields outcome `skipped` for every `.json` file (the
destination-existence check succeeds), and issues no put. -/
theorem sync_idempotent (sep : String) (files : List LocalFile) (st : List String) :
    store_s3 honestTransport sep files ((store_s3 honestTransport sep files st).state) =
      { state := (store_s3 honestTransport sep files st).state
        outcomes := (files.filter (fun f => pyEndsWith f.filename ".json")).map
          (fun f => (relKey sep f, UploadOutcome.skipped))
        puts := [] } :=
  store_honest_all_present sep files _
    (fun f hf hj => store_honest_covers sep files st f hf hj)

/-- C4: The ingestor submits exactly one import-job request per listed
key, in order, with no filtering and no batching; an empty listing (no
`Contents` field) submits zero requests and reports the informational
"nothing to ingest" outcome with exit code 0. -/
theorem ingest_one_request_per_key (bucket d arn : String)
    (submit : ImportJobRequest → SubmitResponse) (keys : List String) :
    (ingest_healthlake bucket d arn (.ok (some keys)) submit).requests =
      keys.map (mkImportRequest bucket d arn)
    ∧ (ingest_healthlake bucket d arn (.ok (some keys)) submit).requests.length =
        keys.length
    ∧ (ingest_healthlake bucket d arn (.ok none) submit).requests = []
    ∧ (ingest_healthlake bucket d arn (.ok none) submit).outcomes =
        [IngestOutcome.nothingToIngest]
    ∧ (ingest_healthlake bucket d arn (.ok none) submit).exitCode = 0 := by
  refine ⟨rfl, ?_, rfl, rfl, rfl⟩
  simp [ingest_healthlake]

/-- C5: For every transport, separator, file list and bucket state, the
sync attempts an upload exactly for the files whose name ends in `.json`,
and the destination key of each is `relKey` — the file's path relative to
the root with separators normalized to `/`. -/
theorem sync_key_derivation (t : Transport) (sep : String)
    (files : List LocalFile) (st : List String) :
    (store_s3 t sep files st).outcomes.map Prod.fst =
      (files.filter (fun f => pyEndsWith f.filename ".json")).map (relKey sep)
    ∧ ∀ f : LocalFile, relKey sep f =
        pyReplaceChar (String.intercalate sep (f.relDir ++ [f.filename])) '\\' '/' :=
  ⟨store_s3_outcome_keys t sep files st, fun _ => rfl⟩

/-- C6: The job name in the request built for a key is a deterministic
function of the key alone — `Ingest-` followed by the key's first 55
characters — and its length is at most 64 (in fact at most 62). -/
theorem job_name_deterministic (bucket d arn key : String) :
    (mkImportRequest bucket d arn key).jobName = jobNameOfKey key
    ∧ jobNameOfKey key = "Ingest-" ++ key.take 55
    ∧ (jobNameOfKey key).length ≤ 64 := by
  refine ⟨rfl, rfl, ?_⟩
  have h : (key.take 55).length ≤ 55 := by
    rw [String.take_eq]
    exact List.length_take_le 55 key.1
  have h2 : (jobNameOfKey key).length = ("Ingest-" : String).length + (key.take 55).length :=
    String.length_append _ _
  have h3 : ("Ingest-" : String).length = 7 := rfl
  omega

/-- C10: Whenever the path argument of `store-s3` is an existing
directory, the process exit code is 0 for every transport — per-file
failures are reported in the outcomes but never change the exit status;
a non-directory path exits 1 without running the sync. -/
theorem run_store_s3_exit (t : Transport) (sep : String)
    (files : List LocalFile) (st : List String) :
    (run_store_s3 true t sep files st).1 = 0
    ∧ (run_store_s3 true t sep files st).2 = (store_s3 t sep files st).outcomes
    ∧ (run_store_s3 false t sep files st).1 = 1 :=
  ⟨rfl, rfl, rfl⟩

/-- C1 (counterexample): with all three credential variables set, a
failing bucket-head and a datastore that would pass, the code exits 1
without attempting the datastore-describe check — refuting the claim that
both remote checks are always performed. -/
theorem doctor_both_checks_counterexample :
    (doctor (fun _ => some "x") (.clientError "denied") .ok).datastoreChecked = false
    ∧ (doctor (fun _ => some "x") (.clientError "denied") .ok).exitCode = 1 :=
  ⟨rfl, rfl⟩

/-- C1 (amended): with all three credential variables present, a failing
bucket-head check makes `doctor` record the bucket failure and exit 1
immediately; the datastore-describe check is not attempted. -/
theorem doctor_bucket_failure_short_circuits (env : String → Option String)
    (hall : ∀ v ∈ required_env_vars, (env v).isSome = true)
    (msg : String) (dd : RemoteResponse) :
    doctor env (.clientError msg) dd =
      { exitCode := 1, missingVars := [], bucketChecked := true,
        bucketPassed := false, datastoreChecked := false, datastorePassed := false } := by
  have hfil : required_env_vars.filter (fun v => (env v).isNone) = [] := by
    rw [List.filter_eq_nil_iff]
    intro v hv
    simp [Option.isNone_iff_eq_none, Option.isSome_iff_exists] at hall ⊢
    rcases hall v hv with ⟨w, hw⟩
    simp [hw]
  simp [doctor, hfil]

/-- C1 witness for `doctor_bucket_failure_short_circuits`. -/
theorem doctor_bucket_failure_short_circuits_witness :
    doctor (fun _ => some "x") (.clientError "denied") .ok =
      { exitCode := 1, missingVars := [], bucketChecked := true,
        bucketPassed := false, datastoreChecked := false, datastorePassed := false } :=
  doctor_bucket_failure_short_circuits (fun _ => some "x")
    (fun _ _ => rfl) "denied" .ok

/-- C3 (counterexample): when the listing call fails, `ingest_healthlake`
catches the exception, prints it, and the process still exits 0 — refuting
the claim that a listing failure yields a non-zero exit code. -/
theorem ingest_listing_failure_counterexample :
    (ingest_healthlake "bkt" "ds" "arn" (.otherError "boom")
        (fun _ => .ok "jid")).exitCode = 0
    ∧ (ingest_healthlake "bkt" "ds" "arn" (.otherError "boom")
        (fun _ => .ok "jid")).requests = [] :=
  ⟨rfl, rfl⟩

/-- C3 (amended): once invoked with well-formed arguments, the ingest
operation always exits 0 — also when the listing call fails, in which case
the failure aborts the whole operation (no import requests are submitted
and the only outcome is the listing error); per-key submission failures
likewise leave the exit code 0. -/
theorem ingest_always_exits_zero (bucket d arn : String) (listing : ListResponse)
    (submit : ImportJobRequest → SubmitResponse) (m : String) :
    (ingest_healthlake bucket d arn listing submit).exitCode = 0
    ∧ (ingest_healthlake bucket d arn (.otherError m) submit).requests = []
    ∧ (ingest_healthlake bucket d arn (.otherError m) submit).outcomes =
        [IngestOutcome.listingError m] := by
  refine ⟨?_, rfl, rfl⟩
  cases listing with
  | ok c => cases c <;> rfl
  | noCredentialsError => rfl
  | partialCredentialsError => rfl
  | otherError m2 => rfl

/-- C7: `doctor` reports as missing exactly the required credential
variables that are unset; when at least one is missing it exits 1 with
neither remote check attempted, and when none is missing it proceeds to
the bucket-head check. -/
theorem doctor_env_gate (env : String → Option String) (hb dd : RemoteResponse) :
    (doctor env hb dd).missingVars =
      required_env_vars.filter (fun v => (env v).isNone)
    ∧ (∀ v, v ∈ (doctor env hb dd).missingVars ↔
        v ∈ required_env_vars ∧ env v = none)
    ∧ (required_env_vars.filter (fun v => (env v).isNone) ≠ [] →
        (doctor env hb dd).exitCode = 1
        ∧ (doctor env hb dd).bucketChecked = false
        ∧ (doctor env hb dd).datastoreChecked = false)
    ∧ (required_env_vars.filter (fun v => (env v).isNone) = [] →
        (doctor env hb dd).bucketChecked = true) := by
  by_cases h : required_env_vars.filter (fun v => (env v).isNone) = []
  · have hnone : ∀ v ∈ required_env_vars, ¬env v = none := by
      intro v hv
      have := List.filter_eq_nil_iff.mp h v hv
      simpa [Option.isNone_iff_eq_none] using this
    refine ⟨?_, ?_, fun hne => absurd h hne, fun _ => ?_⟩ <;>
      cases hb <;> cases dd <;>
        simp [doctor, h, List.mem_filter, Option.isNone_iff_eq_none] <;>
        exact hnone
  · have hempty : (required_env_vars.filter (fun v => (env v).isNone)).isEmpty = false := by
      rw [List.isEmpty_eq_false_iff_exists_mem]
      rcases List.exists_mem_of_ne_nil _ h with ⟨v, hv⟩
      exact ⟨v, hv⟩
    refine ⟨?_, ?_, fun _ => ?_, fun he => absurd he h⟩ <;>
      simp [doctor, hempty, List.mem_filter, Option.isNone_iff_eq_none]

/-- C7 witness for `doctor_env_gate`: a missing `AWS_REGION` aborts with
exit 1 before any remote call and is reported; a fully-set environment
proceeds to the bucket check. -/
theorem doctor_env_gate_witness :
    ((doctor (fun v => if v = "AWS_REGION" then none else some "x") .ok .ok).exitCode = 1
      ∧ (doctor (fun v => if v = "AWS_REGION" then none else some "x") .ok .ok).bucketChecked
          = false
      ∧ (doctor (fun v => if v = "AWS_REGION" then none else some "x") .ok .ok).datastoreChecked
          = false)
    ∧ ("AWS_REGION" ∈
        (doctor (fun v => if v = "AWS_REGION" then none else some "x") .ok .ok).missingVars)
    ∧ (doctor (fun _ => some "x") .ok .ok).bucketChecked = true := by
  have h1 := doctor_env_gate (fun v => if v = "AWS_REGION" then none else some "x") .ok .ok
  have h2 := doctor_env_gate (fun _ => some "x") .ok .ok
  refine ⟨h1.2.2.1 (by decide), ?_, h2.2.2.2 (by decide)⟩
  exact (h1.2.1 "AWS_REGION").mpr (by decide)

/-- C8: A failure on one file is local to that file and the loop
continues.  Whatever the transport does on the first `.json` file, the
rest of the walk is still processed (the outcomes are the first file's
outcome followed by the outcomes of the rest), every `.json` file gets
exactly one outcome, and when the upload is attempted each failure class
(`FileNotFoundError`, `NoCredentialsError`, `PartialCredentialsError`,
other faults) yields its own `Failed` outcome and leaves the bucket
unchanged. -/
theorem sync_failure_isolated (t : Transport) (sep : String) (f : LocalFile)
    (rest : List LocalFile) (st : List String)
    (hjson : pyEndsWith f.filename ".json" = true) :
    (store_s3 t sep (f :: rest) st).outcomes =
      (relKey sep f, (upload_to_s3 t st (relKey sep f)).outcome) ::
        (store_s3 t sep rest (upload_to_s3 t st (relKey sep f)).state).outcomes
    ∧ (store_s3 t sep (f :: rest) st).outcomes.length =
        ((f :: rest).filter (fun g => pyEndsWith g.filename ".json")).length
    ∧ (∀ msg, t.head st (relKey sep f) = .clientError "404" msg →
        (t.put st (relKey sep f) = .fileNotFound →
          (upload_to_s3 t st (relKey sep f)).outcome = .failedFileNotFound
          ∧ (upload_to_s3 t st (relKey sep f)).state = st)
        ∧ (t.put st (relKey sep f) = .noCredentials →
          (upload_to_s3 t st (relKey sep f)).outcome = .failedNoCredentials
          ∧ (upload_to_s3 t st (relKey sep f)).state = st)
        ∧ (t.put st (relKey sep f) = .partialCredentials →
          (upload_to_s3 t st (relKey sep f)).outcome = .failedPartialCredentials
          ∧ (upload_to_s3 t st (relKey sep f)).state = st)
        ∧ (∀ m, t.put st (relKey sep f) = .otherError m →
          (upload_to_s3 t st (relKey sep f)).outcome = .failedOther m
          ∧ (upload_to_s3 t st (relKey sep f)).state = st)) := by
  refine ⟨by simp [store_s3, hjson], ?_, ?_⟩
  · have hkeys := store_s3_outcome_keys t sep (f :: rest) st
    calc (store_s3 t sep (f :: rest) st).outcomes.length
        = ((store_s3 t sep (f :: rest) st).outcomes.map Prod.fst).length :=
          (List.length_map _ _).symm
      _ = (((f :: rest).filter (fun g => pyEndsWith g.filename ".json")).map
            (relKey sep)).length := by rw [hkeys]
      _ = ((f :: rest).filter (fun g => pyEndsWith g.filename ".json")).length :=
          List.length_map _ _
  · intro msg hhead
    refine ⟨?_, ?_, ?_, ?_⟩ <;>
      first
      | (intro hput; constructor <;> simp [upload_to_s3, hhead, hput])
      | (intro m hput; constructor <;> simp [upload_to_s3, hhead, hput])

/-- C8 witness for `sync_failure_isolated`: with a transport whose head
reports 404 and whose put raises `FileNotFoundError`, a two-file walk
still yields one outcome per file, the first being `failedFileNotFound`. -/
theorem sync_failure_isolated_witness :
    letI t : Transport :=
      { head := fun _ _ => .clientError "404" "nf",
        put := fun _ _ => .fileNotFound }
    (store_s3 t "/" [⟨[], "a.json"⟩, ⟨[], "b.json"⟩] []).outcomes =
      ("a.json", (upload_to_s3 t [] "a.json").outcome) ::
        (store_s3 t "/" [⟨[], "b.json"⟩] (upload_to_s3 t [] "a.json").state).outcomes
    ∧ (store_s3 t "/" [⟨[], "a.json"⟩, ⟨[], "b.json"⟩] []).outcomes.length =
        ([(⟨[], "a.json"⟩ : LocalFile), ⟨[], "b.json"⟩].filter
          (fun g => pyEndsWith g.filename ".json")).length
    ∧ (upload_to_s3 t [] "a.json").outcome = .failedFileNotFound
    ∧ (upload_to_s3 t [] "a.json").state = [] := by
  letI t : Transport :=
    { head := fun _ _ => .clientError "404" "nf",
      put := fun _ _ => .fileNotFound }
  have h := sync_failure_isolated t "/" ⟨[], "a.json"⟩ [⟨[], "b.json"⟩] [] (by decide)
  have hkey : relKey "/" (⟨[], "a.json"⟩ : LocalFile) = "a.json" := by decide
  have h3 := (h.2.2 "nf" rfl).1 rfl
  rw [hkey] at h
  exact ⟨h.1, h.2.1, by simpa [hkey] using h3.1, by simpa [hkey] using h3.2⟩

/-- C9: `upload_file` is invoked exactly when `head_object` fails with a
`ClientError` whose code is `'404'`; for any other head error the file is
neither reported present nor uploaded — the head error is recorded as the
outcome and the bucket state is unchanged. -/
theorem upload_put_gate (t : Transport) (st : List String) (key : String) :
    ((upload_to_s3 t st key).puts ≠ [] ↔
      ∃ msg, t.head st key = .clientError "404" msg)
    ∧ (∀ code msg, t.head st key = .clientError code msg → code ≠ "404" →
        (upload_to_s3 t st key).puts = []
        ∧ (upload_to_s3 t st key).outcome = .failedHead code msg
        ∧ (upload_to_s3 t st key).state = st) := by
  constructor
  · cases hh : t.head st key with
    | ok => simp [upload_to_s3, hh]
    | clientError code msg =>
      by_cases hc : code = "404"
      · subst hc
        cases hp : t.put st key <;> simp [upload_to_s3, hh, hp]
      · simp [upload_to_s3, hh, hc]
  · intro code msg hh hc
    refine ⟨?_, ?_, ?_⟩ <;> simp [upload_to_s3, hh, hc]

/-- C9 witness for `upload_put_gate`: a head `ClientError` with code 403
issues no put, records the head error, and leaves the bucket unchanged. -/
theorem upload_put_gate_witness :
    letI t : Transport :=
      { head := fun _ _ => .clientError "403" "denied",
        put := fun _ _ => .ok }
    (upload_to_s3 t ["k0"] "k").puts = []
    ∧ (upload_to_s3 t ["k0"] "k").outcome = .failedHead "403" "denied"
    ∧ (upload_to_s3 t ["k0"] "k").state = ["k0"] := by
  letI t : Transport :=
    { head := fun _ _ => .clientError "403" "denied",
      put := fun _ _ => .ok }
  exact (upload_put_gate t ["k0"] "k").2 "403" "denied" rfl (by decide)

end Hiosctl
